import Mathlib

/-!
# FenceMonitor transport stack: formal model and claim verification

A shallow embedding of the LoRa networking stack of the FenceMonitor
repository, translated from the Python sources:

* `Gateway/LoRaNetworking/LoRaTCPSegment.py` — the `Seq` wrap-around
  sequence-number arithmetic and the `LoRaTCPSegment` codec;
* `LoRaMqttBridge/LoRaNetworking/TCB.py` — the transmission control block;
* `LoRaMqttBridge/LoRaNetworking/LoRaTCP.py` — the transport endpoint
  (segment arrival handling, close, retransmission timer, send path);
* `LoRaMqttBridge/LoRaNetworking/LoRaDataLink.py` and `Queue.py` — the
  data-link send-selection over the bounded transmit queue.

Python integers are unbounded, so sequence numbers are modelled as `ℤ`;
Python's `%` on a positive modulus agrees with `Int.emod`.  Byte strings
are `List ℕ`.  Timers hold "a start time or none"; since every theorem
below is about the step taken *when* a timer has already expired, the
stored clock value is irrelevant and timers are modelled as `Option Unit`.
-/

namespace FenceMonitor

/-! ## Sequence-number arithmetic (`Seq` in LoRaTCPSegment.py) -/

def SEQ_MOD : ℤ := 65536

def SEQ_HALF : ℤ := 32768

/-- Source `Seq.__lt__`: `((self - other) % SEQ_MOD) > SEQ_HALF`. -/
def seqLt (a b : ℤ) : Bool := decide ((a - b) % SEQ_MOD > SEQ_HALF)

/-- Source `Seq.__le__`: `self == other or self < other` (note: Python `int`
equality, not congruence modulo `SEQ_MOD`). -/
def seqLe (a b : ℤ) : Bool := a == b || seqLt a b

/-- Source `Seq.__gt__`: `((other - self) % SEQ_MOD) > SEQ_HALF`. -/
def seqGt (a b : ℤ) : Bool := decide ((b - a) % SEQ_MOD > SEQ_HALF)

/-- Source `Seq.__ge__`: `self == other or self > other`. -/
def seqGe (a b : ℤ) : Bool := a == b || seqGt a b

/-- Source `Seq.__add__`: `(self + other) % SEQ_MOD`. -/
def seqAdd (a b : ℤ) : ℤ := (a + b) % SEQ_MOD

/-- Source `Seq.__sub__`: `(self - other + SEQ_HALF) % SEQ_MOD - SEQ_HALF`
(a signed distance; the result can be negative). -/
def seqSub (a b : ℤ) : ℤ := (a - b + SEQ_HALF) % SEQ_MOD - SEQ_HALF

/-! ## The transport segment (`LoRaTCPSegment` in LoRaTCPSegment.py) -/

/-- A transport segment.  Fields mirror `LoRaTCPSegment.__slots__`.
`socket_id` is a Python int (the constructor checks `0 ≤ socket_id ≤ 15`);
`seq` and `ack` are `Seq` values; `payload` is a byte string. -/
structure LoRaTCPSegment where
  socket_id : ℤ
  syn_flag : Bool
  ack_flag : Bool
  fin_flag : Bool
  rst_flag : Bool
  seq : ℤ
  ack : ℤ
  payload : List ℕ
deriving Repr, DecidableEq

/-- Source `LoRaTCPSegment.__init__`: fails (raises `ValueError`) when the
socket id is outside `0..15` or when `len(payload) > 243` (the source's
check, despite its error message "less than 244 bytes" naming 243 as the
largest admissible length). -/
def mkLoRaTCPSegment (socket_id : ℤ) (seq : ℤ) (ack : ℤ)
    (syn_flag ack_flag fin_flag rst_flag : Bool) (payload : List ℕ) :
    Option LoRaTCPSegment :=
  if ¬(0 ≤ socket_id ∧ socket_id ≤ 15) then none
  else if payload.length > 243 then none
  else some ⟨socket_id, syn_flag, ack_flag, fin_flag, rst_flag, seq, ack, payload⟩

/-- Source `LoRaTCPSegment.from_bytes`: needs a 5-byte header
(`>BHH` big-endian), splits byte 0 into the socket id (high nibble) and
the four flag bits, and hands `data[5:]` to the constructor. -/
def segmentFromBytes (data : List ℕ) : Option LoRaTCPSegment :=
  match data with
  | b0 :: s1 :: s2 :: a1 :: a2 :: rest =>
      let socket_id : ℤ := ((b0 % 256) / 16 : ℕ)
      let flags := b0 % 16
      let syn_flag := flags % 2 == 1
      let ack_flag := (flags / 2) % 2 == 1
      let fin_flag := (flags / 4) % 2 == 1
      let rst_flag := (flags / 8) % 2 == 1
      let seq : ℤ := ((s1 % 256) * 256 + s2 % 256 : ℕ)
      let ack : ℤ := ((a1 % 256) * 256 + a2 % 256 : ℕ)
      mkLoRaTCPSegment socket_id seq ack syn_flag ack_flag fin_flag rst_flag rest
  | _ => none

/-! ## Python `int()` applied to a bytes object

In the CLOSED branch of `LoRaTCP.handle_event_segment_arrives` the source
computes `Seq(seg.seq) + Seq(seg.payload)`.  `Seq` subclasses `int`, so
`Seq(seg.payload)` is Python's `int(bytes)`: the bytes are parsed as a
decimal numeral (optional surrounding ASCII whitespace, optional sign,
digits with single underscores allowed between digits); anything else
raises `ValueError`. -/

def pyIsSpace (c : ℕ) : Bool := c == 32 || (9 ≤ c && c ≤ 13)

def pyIsDigit (c : ℕ) : Bool := 48 ≤ c && c ≤ 57

/-- Digit-group tail: digits, with a single underscore (95) allowed only
between two digits. -/
def pyParseDigitsAux (acc : ℕ) : List ℕ → Option ℕ
  | [] => some acc
  | 95 :: c :: rest =>
      if pyIsDigit c then pyParseDigitsAux (acc * 10 + (c - 48)) rest else none
  | c :: rest =>
      if pyIsDigit c then pyParseDigitsAux (acc * 10 + (c - 48)) rest else none

def pyParseDigits : List ℕ → Option ℕ
  | [] => none
  | c :: rest => if pyIsDigit c then pyParseDigitsAux (c - 48) rest else none

/-- Source `int(b)` for a bytes object `b`; `none` models a raised
`ValueError`. -/
def pyIntOfBytes (l : List ℕ) : Option ℤ :=
  let t := ((l.dropWhile pyIsSpace).reverse.dropWhile pyIsSpace).reverse
  match t with
  | 43 :: rest => (pyParseDigits rest).map (Int.ofNat)
  | 45 :: rest => (pyParseDigits rest).map (fun n => -(n : ℤ))
  | _ => (pyParseDigits t).map Int.ofNat

/-! ## CLOSED-state segment arrival (LoRaTCP.py lines 652-682)

The reply is built with the `LoRaTCPSegment` constructor's default
arguments: `ack = Seq(0)`, `ack_flag = True`, `syn_flag = False`,
`fin_flag = False`.  Both replies carry an empty payload and neither SYN
nor FIN, so `send_segment` leaves the retransmission queue, `snd_nxt`
and all other TCB fields unchanged; the handler's whole effect is the
reply itself. -/

/-- Source `handle_event_segment_arrives`, CLOSED branch.  Result:
`Except.error ()` models an uncaught `ValueError` (no reply is sent);
`Except.ok none` means the segment was discarded silently;
`Except.ok (some r)` means reply `r` was handed to `send_segment`. -/
def handleClosed (seg : LoRaTCPSegment) : Except Unit (Option LoRaTCPSegment) :=
  if seg.rst_flag then
    Except.ok none
  else if ¬seg.ack_flag then
    match pyIntOfBytes seg.payload with
    | none => Except.error ()
    | some v =>
        let ack := seqAdd seg.seq v
        Except.ok (some ⟨seg.socket_id, false, true, false, true, 0, ack, []⟩)
  else
    Except.ok (some ⟨seg.socket_id, false, true, false, true, seg.seq, 0, []⟩)

/-! ## Sequence acceptability (LoRaTCP.py lines 1301-1350) -/

/-- Source `LoRaTCP.check_if_segment_is_in_receive_window`.  `rcv_nxt` and
`rcv_wnd` are the fields the method reads from `self.tcb`.  Note
`last_byte_seq = seg_seq + seg_len - 1` goes through `Seq.__add__`
followed by `Seq.__sub__`, whose result is a *signed* distance and can
be a negative `int`. -/
def checkIfSegmentIsInReceiveWindow (seg : LoRaTCPSegment)
    (rcv_nxt rcv_wnd : ℤ) : Bool :=
  let seg_seq := seg.seq
  let seg_len : ℕ := seg.payload.length
  if seg_len == 0 && rcv_wnd == 0 then
    seg_seq == rcv_nxt
  else if seg_len == 0 && rcv_wnd > 0 then
    seqLe rcv_nxt seg_seq && seqLt seg_seq (seqAdd rcv_nxt rcv_wnd)
  else if seg_len > 0 && rcv_wnd == 0 then
    false
  else if seg_len > 0 && rcv_wnd > 0 then
    let last_byte_seq := seqSub (seqAdd seg_seq seg_len) 1
    (seqLe rcv_nxt seg_seq && seqLt seg_seq (seqAdd rcv_nxt rcv_wnd)) ||
      (seqLe rcv_nxt last_byte_seq && seqLt last_byte_seq (seqAdd rcv_nxt rcv_wnd))
  else
    false

/-- Modelled from the claim (C5): membership of a 16-bit sequence number
`x` in the half-open window `[rcv_nxt, rcv_nxt + rcv_wnd)` under
wrap-around arithmetic. -/
def seqInWindowClaim (x rcv_nxt wnd : ℤ) : Bool :=
  decide ((x - rcv_nxt) % 65536 < wnd)

/-- Modelled from the claim (C5): the four-case RFC 793 acceptability
table, with the first (`seq`) and last (`seq + len − 1 mod 2^16`)
payload byte tested against the window. -/
def segmentAcceptabilityClaim (seq : ℤ) (len : ℕ) (rcv_nxt wnd : ℤ) : Bool :=
  if len = 0 ∧ wnd = 0 then seq == rcv_nxt
  else if len = 0 then seqInWindowClaim seq rcv_nxt wnd
  else if wnd = 0 then false
  else seqInWindowClaim seq rcv_nxt wnd ||
    seqInWindowClaim (seqAdd seq (len - 1 : ℕ)) rcv_nxt wnd

/-! ## The transmission control block (`TCB` in TCB.py) -/

/-- Source `TCB.py` line 12: `LoRaTCP_MAX_PAYLOAD_SIZE = const(241)` — the
TCB module's own copy of the constant, whose written value is 241. -/
def TCB_MAX_PAYLOAD_SIZE : ℤ := 241

/-- Source `LoRaTCP.py` line 15: `LoRaTCP_MAX_PAYLOAD_SIZE = const(242)` — the
transport module's copy of the constant (242, disagreeing with TCB.py's
241). -/
def LoRaTCP_MAX_PAYLOAD_SIZE : ℤ := 242

/-- The eleven connection states, `TCB.STATE_*`. -/
inductive TCBState
  | CLOSED | LISTEN | SYN_RCVD | SYN_SENT | ESTAB
  | FIN_WAIT_1 | CLOSE_WAIT | FIN_WAIT_2 | CLOSING | LAST_ACK | TIME_WAIT
deriving DecidableEq, Repr

/-- The per-connection state, `TCB.__slots__` (fields a claim touches).
The receive buffer is the insertion-ordered Python dict `seq → bytes`.
Fields the source initialises to `None` (`snd_una`, `snd_nxt`,
`rcv_nxt`, and `socket_id`/`fin_seq` after `delete()`) are modelled at
their post-handshake type with sentinel `0` / `none`; no claim below
depends on those sentinel values.  Timers are "started or not"
(`Option Unit`), abstracting the stored clock reading. -/
structure TCB where
  socket_id : ℤ
  state : TCBState
  snd_wnd : ℤ
  rcv_wnd : ℤ
  snd_una : ℤ
  snd_nxt : ℤ
  rcv_nxt : ℤ
  iss : ℤ
  fin_seq : Option ℤ
  retransmission_queue : List LoRaTCPSegment
  receive_buffer : List (ℤ × List ℕ)
  reassembled_data : List ℕ
  send_buffer : List ℕ
  retransmission_timeout_timer : Option Unit
  time_wait_timer : Option Unit
deriving Repr, DecidableEq

/-- Source `TCB.__init__` (`iss` is the 16-bit random draw, passed in). -/
def initTCB (socket_id iss : ℤ) : TCB where
  socket_id := socket_id
  state := .CLOSED
  snd_wnd := TCB_MAX_PAYLOAD_SIZE
  rcv_wnd := TCB_MAX_PAYLOAD_SIZE
  snd_una := 0
  snd_nxt := 0
  rcv_nxt := 0
  iss := iss
  fin_seq := none
  retransmission_queue := []
  receive_buffer := []
  reassembled_data := []
  send_buffer := []
  retransmission_timeout_timer := none
  time_wait_timer := none

/-- Source `TCB.delete`: cancels timers, re-randomizes `iss` (the fresh draw is
passed in), resets the windows to `TCB.py`'s constant and clears all
buffers; the state becomes CLOSED. -/
def deleteTCB (newIss : ℤ) (_t : TCB) : TCB where
  socket_id := 0
  state := .CLOSED
  snd_wnd := TCB_MAX_PAYLOAD_SIZE
  rcv_wnd := TCB_MAX_PAYLOAD_SIZE
  snd_una := 0
  snd_nxt := 0
  rcv_nxt := 0
  iss := newIss
  fin_seq := none
  retransmission_queue := []
  receive_buffer := []
  reassembled_data := []
  send_buffer := []
  retransmission_timeout_timer := none
  time_wait_timer := none

/-! ## The transport endpoint and `send_segment` (LoRaTCP.py 1214-1255) -/

/-- The per-socket retransmission bookkeeping that lives on the
`LoRaTCP` instance (`_last_retransmission_sequence_number`,
`_retransmission_attempts`) together with its TCB. -/
structure TcpEndpoint where
  tcb : TCB
  lastRetransmissionSequenceNumber : Option ℤ
  retransmissionAttempts : ℕ
deriving Repr, DecidableEq

/-- Source `deque(maxlen=20).append`: when the deque is full the oldest
(leftmost) element is discarded. -/
def dequeAppendMax20 (q : List LoRaTCPSegment) (s : LoRaTCPSegment) :
    List LoRaTCPSegment :=
  if q.length ≥ 20 then q.tail ++ [s] else q ++ [s]

/-- Source `LoRaTCP.send_segment`.  The returned list is the serialized segment
handed to `LoRaDataLink.add_to_send_queue` (always exactly one).  On a
first transmission the segment is appended to the retransmission queue
(and the retransmission timer started) iff it carries payload, SYN or
FIN; then `snd_nxt` is advanced by the payload length and by one more
for FIN or SYN, recording `fin_seq` for a FIN.  A retransmission changes
nothing. -/
def sendSegment (ep : TcpEndpoint) (seg : LoRaTCPSegment)
    (is_retransmission : Bool) : TcpEndpoint × List LoRaTCPSegment :=
  let t := ep.tcb
  let t :=
    if !is_retransmission &&
        (seg.payload.length > 0 || seg.syn_flag || seg.fin_flag) then
      { t with retransmission_queue := dequeAppendMax20 t.retransmission_queue seg,
               retransmission_timeout_timer := some () }
    else t
  let t :=
    if !is_retransmission then
      let t :=
        if seg.payload.length > 0 then
          { t with snd_nxt := seqAdd t.snd_nxt seg.payload.length }
        else t
      if seg.fin_flag || seg.syn_flag then
        let t := { t with snd_nxt := seqAdd t.snd_nxt 1 }
        if seg.fin_flag then { t with fin_seq := some seg.seq } else t
      else t
    else t
  ({ ep with tcb := t }, [seg])

/-! ## `close()` (LoRaTCP.py 384-436) -/

/-- The FIN segment every close path builds:
`LoRaTCPSegment(socket_id, seq=snd_nxt, ack=rcv_nxt, ack_flag=True,
fin_flag=True)`. -/
def finAckSegment (t : TCB) : LoRaTCPSegment :=
  ⟨t.socket_id, false, true, true, false, t.snd_nxt, t.rcv_nxt, []⟩

/-- Source `LoRaTCP._internal_close_call`: deletes the TCB (which resets the
state to CLOSED) and deregisters the socket (the registry bookkeeping is
outside the endpoint state). -/
def internalCloseCall (newIss : ℤ) (ep : TcpEndpoint) : TcpEndpoint :=
  { ep with tcb := deleteTCB newIss ep.tcb }

/-- Source `LoRaTCP.close`.  State-dependent per the source: CLOSED is ignored;
LISTEN and SYN_SENT close internally; SYN_RCVD sends FIN|ACK *without a
state change*; ESTAB sends FIN|ACK and enters FIN_WAIT_1; CLOSE_WAIT
sends FIN|ACK *without a state change* (the source's comment announces
"enter CLOSING state" but no assignment follows); every other state only
logs. -/
def pyClose (newIss : ℤ) (ep : TcpEndpoint) :
    TcpEndpoint × List LoRaTCPSegment :=
  match ep.tcb.state with
  | .CLOSED => (ep, [])
  | .LISTEN => (internalCloseCall newIss ep, [])
  | .SYN_SENT => (internalCloseCall newIss ep, [])
  | .SYN_RCVD => sendSegment ep (finAckSegment ep.tcb) false
  | .ESTAB =>
      let r := sendSegment ep (finAckSegment ep.tcb) false
      ({ r.1 with tcb := { r.1.tcb with state := .FIN_WAIT_1 } }, r.2)
  | .FIN_WAIT_1 => (ep, [])
  | .FIN_WAIT_2 => (ep, [])
  | .CLOSE_WAIT => sendSegment ep (finAckSegment ep.tcb) false
  | .CLOSING => (ep, [])
  | .LAST_ACK => (ep, [])
  | .TIME_WAIT => (ep, [])

/-- A concrete endpoint sitting in CLOSE_WAIT, used to instantiate the
C2 theorem. -/
def closeWaitEndpoint : TcpEndpoint :=
  ⟨{ initTCB 1 0 with
      state := TCBState.CLOSE_WAIT
      snd_nxt := 42
      rcv_nxt := 17 }, none, 0⟩

/-! ## The retransmission timer (LoRaTCP.py 485-529) -/

/-- Source `LoRaTCP.MAX_RETRANSMISSION_ATTEMPTS`. -/
def MAX_RETRANSMISSION_ATTEMPTS : ℕ := 25

/-- Source `LoRaTCP._check_retransmission_timer`, in the case the timer is set
and has expired (the only case any claim concerns; otherwise the method
returns without effect).  With a non-empty queue: peek the front
segment; bump the per-seq attempt counter (reset to 0 when the front's
seq changed); once the counter reaches 25, send
`LoRaTCPSegment(socket_id, seq=snd_nxt, rst_flag=True)` (constructor
defaults: `ack_flag=True`, `ack=0`) and call `close()` — and then, the
source not returning there, fall through and resend anyway; the resend
updates `segment.ack = rcv_nxt` in place (unless SYN) — the queue holds
the same object, so its front is updated too — and restarts the timer.
`newIss` feeds a `TCB.delete` that a `close()` from LISTEN/SYN_SENT
would perform. -/
def checkRetransmissionTimerExpired (newIss : ℤ) (ep : TcpEndpoint) :
    TcpEndpoint × List LoRaTCPSegment :=
  match ep.tcb.retransmission_queue with
  | [] =>
      ({ ep with tcb := { ep.tcb with retransmission_timeout_timer := none } }, [])
  | seg :: _ =>
      let counters : Option ℤ × ℕ :=
        if ep.lastRetransmissionSequenceNumber == some seg.seq then
          (ep.lastRetransmissionSequenceNumber, ep.retransmissionAttempts + 1)
        else (some seg.seq, 0)
      let ep1 : TcpEndpoint :=
        { ep with lastRetransmissionSequenceNumber := counters.1,
                  retransmissionAttempts := counters.2 }
      let afterLimit : TcpEndpoint × List LoRaTCPSegment :=
        if counters.2 ≥ MAX_RETRANSMISSION_ATTEMPTS then
          let r1 := sendSegment ep1
            ⟨seg.socket_id, false, true, false, true, ep1.tcb.snd_nxt, 0, []⟩ false
          let r2 := pyClose newIss r1.1
          (r2.1, r1.2 ++ r2.2)
        else (ep1, [])
      let seg' : LoRaTCPSegment :=
        if !seg.syn_flag then { seg with ack := afterLimit.1.tcb.rcv_nxt,
                                         ack_flag := true }
        else seg
      let q' : List LoRaTCPSegment :=
        match afterLimit.1.tcb.retransmission_queue with
        | [] => []
        | x :: xs => if x = seg then seg' :: xs else x :: xs
      let ep3 : TcpEndpoint :=
        { afterLimit.1 with tcb := { afterLimit.1.tcb with
            retransmission_queue := q',
            retransmission_timeout_timer := some () } }
      (ep3, afterLimit.2 ++ [seg'])

/-- Iterated timer expiries: the per-step output lists, oldest first,
and the endpoint after the last step. -/
def retransmissionTrace (newIss : ℤ) :
    ℕ → TcpEndpoint → TcpEndpoint × List (List LoRaTCPSegment)
  | 0, ep => (ep, [])
  | n + 1, ep =>
      let r := checkRetransmissionTimerExpired newIss ep
      let rest := retransmissionTrace newIss n r.1
      (rest.1, r.2 :: rest.2)

/-- The unacknowledged 5-byte data segment retransmitted in the C4
scenario. -/
def c4DataSegment : LoRaTCPSegment :=
  ⟨1, false, true, false, false, 100, 50, [9, 9, 9, 9, 9]⟩

/-- An ESTABLISHED endpoint whose only unacknowledged segment is
`c4DataSegment` and whose peer never acknowledges. -/
def c4Endpoint : TcpEndpoint :=
  ⟨{ initTCB 1 99 with
      state := TCBState.ESTAB
      snd_una := 100
      snd_nxt := 105
      rcv_nxt := 50
      retransmission_queue := [c4DataSegment]
      retransmission_timeout_timer := some () }, none, 0⟩

/-! ## Segment-text delivery and reassembly (LoRaTCP.py 1105-1134,
1392-1446)

`tcb.receive_buffer` is a Python dict `seq → bytes`; it is modelled as
an insertion-ordered association list with the dict's update semantics
(assignment to a present key replaces in place, `pop` removes). -/

/-- Source `key in dict` / `dict[key]` lookup. -/
def bufLookup (k : ℤ) : List (ℤ × List ℕ) → Option (List ℕ)
  | [] => none
  | (k', v) :: rest => if k' = k then some v else bufLookup k rest

/-- Source `dict[key] = value`. -/
def bufInsert (k : ℤ) (v : List ℕ) : List (ℤ × List ℕ) → List (ℤ × List ℕ)
  | [] => [(k, v)]
  | (k', v') :: rest =>
      if k' = k then (k', v) :: rest else (k', v') :: bufInsert k v rest

/-- Source `dict.pop(key)` (key removal). -/
def bufErase (k : ℤ) : List (ℤ × List ℕ) → List (ℤ × List ℕ)
  | [] => []
  | (k', v') :: rest => if k' = k then rest else (k', v') :: bufErase k rest

/-- The `while True` walk of `_reassemble_received_data`: while
`rcv_nxt` keys the buffer, pop the entry, append its bytes to the
reassembled stream and advance `rcv_nxt` by their count.  Every
iteration removes one buffer entry, so the entry count bounds the
iteration count and serves as structural fuel; with `fuel =
buf.length` the fuel can only run out on an empty buffer, where the
loop would stop anyway. -/
def reassembleGo :
    ℕ → ℤ → List (ℤ × List ℕ) → List ℕ → ℤ × List (ℤ × List ℕ) × List ℕ
  | 0, nxt, buf, acc => (nxt, buf, acc)
  | fuel + 1, nxt, buf, acc =>
      match bufLookup nxt buf with
      | none => (nxt, buf, acc)
      | some data =>
          reassembleGo fuel (seqAdd nxt data.length) (bufErase nxt buf)
            (acc ++ data)

/-- Source `LoRaTCP._reassemble_received_data` (the early return on an empty
buffer coincides with the walk stopping immediately): final `rcv_nxt`,
remaining buffer, bytes appended to `reassembled_data`. -/
def reassembleReceivedData (nxt : ℤ) (buf : List (ℤ × List ℕ)) :
    ℤ × List (ℤ × List ℕ) × List ℕ :=
  reassembleGo buf.length nxt buf []

/-- Lines 1114-1134, the "seventh, process the segment text" step for a
payload-bearing segment in ESTAB / FIN_WAIT_1 / FIN_WAIT_2: park the
payload under its seq, reassemble, then set
`rcv_wnd = LoRaTCP_MAX_PAYLOAD_SIZE − len(receive_buffer)` — `len` of a
dict counts its *entries* (segments), not their bytes.  (The subsequent
piggy-backed ACK, lines 1136-1147, touches neither `rcv_nxt`, `rcv_wnd`
nor the receive buffer.) -/
def deliverSegmentText (seg : LoRaTCPSegment) (t : TCB) : TCB :=
  let buf1 := bufInsert seg.seq seg.payload t.receive_buffer
  let r := reassembleReceivedData t.rcv_nxt buf1
  { t with receive_buffer := r.2.1
           rcv_nxt := r.1
           reassembled_data := t.reassembled_data ++ r.2.2
           rcv_wnd := LoRaTCP_MAX_PAYLOAD_SIZE - r.2.1.length }

/-- An ESTABLISHED receiver right after the handshake
(`rcv_nxt = 0`, windows at their initial 241). -/
def c3Receiver : TCB :=
  { initTCB 1 0 with state := TCBState.ESTAB }

/-! ## The data-link send selection (LoRaDataLink.py 403-442, Queue.py)

The transmit queue is a `Queue(maxsize=10)`: `put_sync` drops the
oldest element when full, `pop_sync` dequeues the front (or yields
nothing when empty).  `_find_dataframe_for_active_sensor` on a sensor
just pops; on the gateway it drains the queue into a list, walks it in
order, keeps the first frame whose destination sensor record exists and
is active, and re-enqueues every other frame via `put_sync`.  The
activity test (`state is not None and state.is_active()`, a timestamp
comparison against the 10 s timeout at call time) is modelled as a
predicate on the frame's destination address. -/

/-- Link-layer frame (`LoRaDataFrame.__slots__`): 6-byte address, type
byte, payload. -/
structure LoRaDataFrame where
  address : List ℕ
  data_type : ℕ
  payload : List ℕ
deriving Repr, DecidableEq

/-- The two `LORA_DATALINK_MODE_*` constants. -/
inductive DataLinkMode
  | SENSOR | GATEWAY
deriving DecidableEq, Repr

/-- Source `Queue.put_sync` with capacity `maxsize`: drop the oldest when
full, then append. -/
def queuePutSync (maxsize : ℕ) (q : List LoRaDataFrame)
    (item : LoRaDataFrame) : List LoRaDataFrame :=
  if q.length ≥ maxsize then q.tail ++ [item] else q ++ [item]

/-- Source `Queue.pop_sync`: the front element (if any) and the remaining
queue. -/
def queuePopSync (q : List LoRaDataFrame) :
    Option LoRaDataFrame × List LoRaDataFrame :=
  match q with
  | [] => (none, [])
  | x :: xs => (some x, xs)

/-- The gateway walk over the drained frames: `active_frame` is the
first frame found for an active sensor; every other frame is re-added
with `put_sync`. -/
def findFramesLoop (active : List ℕ → Bool) :
    List LoRaDataFrame → Option LoRaDataFrame → List LoRaDataFrame →
    Option LoRaDataFrame × List LoRaDataFrame
  | [], acc, q => (acc, q)
  | f :: fs, acc, q =>
      if active f.address then
        match acc with
        | none => findFramesLoop active fs (some f) q
        | some a => findFramesLoop active fs (some a) (queuePutSync 10 q f)
      else findFramesLoop active fs acc (queuePutSync 10 q f)

/-- Source `LoRaDataLink._find_dataframe_for_active_sensor`: the selected frame
(if any) and the transmit queue it leaves behind. -/
def findDataframeForActiveSensor (mode : DataLinkMode)
    (active : List ℕ → Bool) (transmitQueue : List LoRaDataFrame) :
    Option LoRaDataFrame × List LoRaDataFrame :=
  match mode with
  | .SENSOR => queuePopSync transmitQueue
  | .GATEWAY => findFramesLoop active transmitQueue none []


/-! ## Theorems on the embedded model -/

/-! ### Claim C7 — trichotomy of the wrap-around comparison -/

/-- C7 (counterexample): at circular distance exactly `2^15` the claimed
law `(a < b) XOR (a ≥ b) = true` fails: for `a = 0`, `b = 32768` both
`a < b` and `a ≥ b` are `false` under the source's `Seq` comparison. -/
theorem C7_counterexample :
    seqLt 0 32768 = false ∧ seqGe 0 32768 = false ∧
    xor (seqLt 0 32768) (seqGe 0 32768) = false := by
  decide

/-- C7 (amended): for every pair of 16-bit sequence numbers `a`, `b`,
the law `(a < b) XOR (a ≥ b) = true` holds exactly when the circular
distance `(a - b) mod 2^16` is not `2^15`; at distance exactly `2^15`
both comparisons return `false`. -/
theorem C7_seq_comparison_trichotomy (a b : ℤ)
    (ha0 : 0 ≤ a) (ha : a < 65536) (hb0 : 0 ≤ b) (hb : b < 65536) :
    ((a - b) % 65536 ≠ 32768 → xor (seqLt a b) (seqGe a b) = true) ∧
    ((a - b) % 65536 = 32768 → seqLt a b = false ∧ seqGe a b = false) := by
  have hab : a = b ∨ a ≠ b := eq_or_ne a b
  constructor
  · intro hne
    rcases hab with h | h
    · subst h
      simp [seqLt, seqGe, seqGt, SEQ_MOD, SEQ_HALF]
    · have hforward : (a - b) % 65536 + (b - a) % 65536 = 65536 := by
        omega
      simp only [seqLt, seqGe, seqGt, SEQ_MOD, SEQ_HALF, beq_iff_eq]
      by_cases hgt : (a - b) % 65536 > 32768
      · have : ¬((b - a) % 65536 > 32768) := by omega
        simp [hgt, this, h]
      · have : (b - a) % 65536 > 32768 := by omega
        simp [hgt, this, h]
  · intro heq
    have hne : a ≠ b := by
      intro h; subst h; omega
    have hforward : (b - a) % 65536 = 32768 := by omega
    simp [seqLt, seqGe, seqGt, SEQ_MOD, SEQ_HALF, heq, hforward, hne]

/-- C7 witness: the amended law applied at `a = 0`, `b = 1`. -/
theorem C7_seq_comparison_trichotomy_witness :
    xor (seqLt 0 1) (seqGe 0 1) = true :=
  (C7_seq_comparison_trichotomy 0 1 (by decide) (by decide) (by decide)
    (by decide)).1 (by decide)

/-! ### Claim C8 — the constructor's payload bound -/

/-- Any segment the constructor returns carries at most 243 payload
bytes. -/
theorem mkLoRaTCPSegment_payload_le {sid seq ack : ℤ} {syn af fin rst : Bool}
    {payload : List ℕ} {s : LoRaTCPSegment}
    (h : mkLoRaTCPSegment sid seq ack syn af fin rst payload = some s) :
    s.payload.length ≤ 243 := by
  unfold mkLoRaTCPSegment at h
  split at h
  · exact Option.noConfusion h
  · split at h
    · exact Option.noConfusion h
    · next hlen => cases h; simpa using hlen

/-- C8 (counterexample): a 243-byte payload is accepted by the
constructor, so "the constructor fails for any payload longer than 242
bytes" is false as stated. -/
theorem C8_counterexample :
    (mkLoRaTCPSegment 0 0 0 false true false false
      (List.replicate 243 0)).isSome = true := by
  rw [mkLoRaTCPSegment]
  norm_num [List.length_replicate]

/-- C8 (amended): every successfully constructed (hence every decoded)
segment has a payload of at most 243 bytes; the constructor succeeds
exactly when the socket id is in `0..15` and the payload is at most 243
bytes, and every successful decode yields a payload of at most 243
bytes. -/
theorem C8_payload_bound (sid seq ack : ℤ) (syn af fin rst : Bool)
    (payload data : List ℕ) (s : LoRaTCPSegment) :
    ((mkLoRaTCPSegment sid seq ack syn af fin rst payload).isSome ↔
      (0 ≤ sid ∧ sid ≤ 15 ∧ payload.length ≤ 243)) ∧
    (segmentFromBytes data = some s → s.payload.length ≤ 243) := by
  constructor
  · unfold mkLoRaTCPSegment
    by_cases h1 : 0 ≤ sid ∧ sid ≤ 15 <;>
      by_cases h2 : payload.length > 243 <;>
      simp [h1, h2] <;> omega
  · intro h
    unfold segmentFromBytes at h
    split at h
    · exact mkLoRaTCPSegment_payload_le h
    · exact Option.noConfusion h

/-- C8 witness: the constructor accepts a 243-byte payload (socket id 0),
and decoding the 5-byte frame `[16,0,1,0,2]` yields a segment with empty
payload, which is at most 243 bytes. -/
theorem C8_payload_bound_witness :
    ((mkLoRaTCPSegment 0 0 0 false true false false
        (List.replicate 243 0)).isSome ↔
      (0 ≤ (0 : ℤ) ∧ (0 : ℤ) ≤ 15 ∧ (List.replicate 243 (0 : ℕ)).length ≤ 243)) ∧
    (⟨1, false, false, false, false, 1, 2, []⟩ : LoRaTCPSegment).payload.length ≤ 243 := by
  have h := C8_payload_bound 0 0 0 false true false false
    (List.replicate 243 0) [16, 0, 1, 0, 2]
    ⟨1, false, false, false, false, 1, 2, []⟩
  exact ⟨h.1, h.2 (by decide)⟩

/-! ### Claim C1 — RST replies from the CLOSED state

The claim (and the RFC 793 text quoted in the source's own comments,
`<SEQ=SEG.ACK><CTL=RST>` and `<SEQ=0><ACK=SEG.SEQ+SEG.LEN><CTL=RST,ACK>`)
requires: ACK set → reply `seq = SEG.ACK`; ACK clear → reply
`ack = SEG.SEQ + SEG.LEN`.  The code instead replies with
`seq = SEG.SEQ` in the ACK-set case, and in the ACK-clear case computes
`Seq(seg.payload)` — `int()` of the payload *bytes* — instead of the
payload *length*, which raises `ValueError` for any payload that is not
a decimal numeral. -/

/-- C1 (code bug, evaluated): in CLOSED, for an arriving segment with
ACK set, `seq = 5`, `ack = 7`, the reply carries `seq = 5` (`SEG.SEQ`),
not `seq = 7` (`SEG.ACK`) as the claim states; for an arriving segment
with ACK clear and the 1-byte payload `[0]`, `int(payload)` raises, so
no RST reply is sent at all (the claim demands one with
`ack = SEG.SEQ + 1`); a segment carrying RST is discarded silently. -/
theorem C1_closed_state_reply :
    (handleClosed ⟨3, false, true, false, false, 5, 7, []⟩ =
      Except.ok (some ⟨3, false, true, false, true, 5, 0, []⟩)) ∧
    (⟨3, false, true, false, true, 5, 0, []⟩ : LoRaTCPSegment).seq ≠
      (⟨3, false, true, false, false, 5, 7, []⟩ : LoRaTCPSegment).ack ∧
    (handleClosed ⟨3, false, false, false, false, 5, 7, [0]⟩ =
      Except.error ()) ∧
    (handleClosed ⟨3, false, true, false, true, 5, 7, [0]⟩ =
      Except.ok none) :=
  ⟨rfl, by decide, rfl, rfl⟩

/-! ### Claim C5 — the four-case acceptability test

The source's own docstring states the RFC table ("Länge >0, Fenster >0:
Erstes oder letztes Byte im Fenster").  But when `seg_seq + seg_len`
wraps past `2^16` (or lands on `32769..65536`), `Seq.__sub__` represents
`last_byte_seq` as a *negative* int, and `Seq.__le__`'s `self == other`
arm compares raw ints, so the boundary case "last byte == rcv_nxt" is
missed: with `seq = 65530`, a 6-byte payload, `rcv_nxt = 65535`,
`rcv_wnd = 10`, the last payload byte has sequence number
`(65530 + 6 - 1) mod 2^16 = 65535 = rcv_nxt`, inside the window, yet the
code computes `last_byte_seq = -1` and returns `False`. -/

/-- C5 (code bug, evaluated): at `seq = 65530`, payload length 6,
`rcv_nxt = 65535`, `rcv_wnd = 10`, the code returns `false` although the
last payload byte lies in the window, so the claimed four-case table is
violated; on the same state the three remaining RFC cases behave as
claimed at sample points. -/
theorem C5_receive_window_check :
    (checkIfSegmentIsInReceiveWindow
        ⟨1, false, true, false, false, 65530, 0, List.replicate 6 0⟩
        65535 10 = false) ∧
    (segmentAcceptabilityClaim 65530 6 65535 10 = true) ∧
    (checkIfSegmentIsInReceiveWindow ⟨1, false, true, false, false, 65535, 0, []⟩
        65535 0 = true) ∧
    (checkIfSegmentIsInReceiveWindow ⟨1, false, true, false, false, 3, 0, []⟩
        65535 10 = true) ∧
    (checkIfSegmentIsInReceiveWindow ⟨1, false, true, false, false, 65535, 0, [1]⟩
        65535 0 = false) := by
  decide

/-! ### Claim C6 — the initial window sizes -/

/-- C6 (counterexample): a newly created TCB has
`snd_wnd = rcv_wnd = 241`, not 242: `TCB.py` defines its own
`LoRaTCP_MAX_PAYLOAD_SIZE = const(241)` and `__init__` uses it for both
windows. -/
theorem C6_counterexample :
    (initTCB 0 0).snd_wnd = 241 ∧ (initTCB 0 0).snd_wnd ≠ 242 ∧
    (initTCB 0 0).rcv_wnd ≠ 242 := by
  decide

/-- C6 (amended): for every newly created TCB and for every TCB after
`delete()`, the initial send window and receive window both equal
241. -/
theorem C6_initial_windows (socket_id iss newIss : ℤ) (t : TCB) :
    (initTCB socket_id iss).snd_wnd = 241 ∧
    (initTCB socket_id iss).rcv_wnd = 241 ∧
    (deleteTCB newIss t).snd_wnd = 241 ∧
    (deleteTCB newIss t).rcv_wnd = 241 :=
  ⟨rfl, rfl, rfl, rfl⟩

/-- Appending to the bounded deque always leaves the new segment at the
back. -/
theorem dequeAppendMax20_getLast (q : List LoRaTCPSegment)
    (s : LoRaTCPSegment) : (dequeAppendMax20 q s).getLast? = some s := by
  unfold dequeAppendMax20
  split <;> exact List.getLast?_concat _

/-! ### Claim C10 — retransmission-queue admission and `snd_nxt` -/

/-- C10: on a first transmission the segment is appended to the
retransmission queue iff it carries payload, SYN or FIN (so a pure ACK
or a bare RST is never enqueued), `snd_nxt` advances by exactly the
payload length plus one more when SYN or FIN is set (hence pure ACKs and
RSTs consume no sequence numbers), and a retransmission changes neither
the endpoint state nor emits anything but the segment itself. -/
theorem C10_send_segment_first_transmission (ep : TcpEndpoint)
    (seg : LoRaTCPSegment)
    (h0 : 0 ≤ ep.tcb.snd_nxt) (h1 : ep.tcb.snd_nxt < 65536) :
    ((seg.payload.length > 0 || seg.syn_flag || seg.fin_flag) = true →
      (sendSegment ep seg false).1.tcb.retransmission_queue =
        dequeAppendMax20 ep.tcb.retransmission_queue seg ∧
      (sendSegment ep seg false).1.tcb.retransmission_queue.getLast? = some seg ∧
      (sendSegment ep seg false).1.tcb.retransmission_timeout_timer = some ()) ∧
    ((seg.payload.length > 0 || seg.syn_flag || seg.fin_flag) = false →
      (sendSegment ep seg false).1.tcb.retransmission_queue =
        ep.tcb.retransmission_queue ∧
      (sendSegment ep seg false).1.tcb.snd_nxt = ep.tcb.snd_nxt) ∧
    (sendSegment ep seg false).1.tcb.snd_nxt =
      seqAdd ep.tcb.snd_nxt ((seg.payload.length : ℤ) +
        (if seg.syn_flag || seg.fin_flag then 1 else 0)) ∧
    (sendSegment ep seg true).1 = ep ∧
    (sendSegment ep seg false).2 = [seg] ∧
    (sendSegment ep seg true).2 = [seg] := by
  have hmod : ep.tcb.snd_nxt % 65536 = ep.tcb.snd_nxt :=
    Int.emod_emod_of_dvd _ dvd_rfl ▸ Int.emod_eq_of_lt h0 h1
  cases hsyn : seg.syn_flag <;> cases hfin : seg.fin_flag <;>
    rcases Nat.eq_zero_or_pos seg.payload.length with hp | hp <;>
    simp [sendSegment, hsyn, hfin, hp, seqAdd, SEQ_MOD,
      dequeAppendMax20_getLast, hmod] <;>
    omega

/-- C10 witness: the theorem applied to a fresh endpoint retransmitting
a pure ACK. -/
theorem C10_send_segment_first_transmission_witness :
    (sendSegment ⟨initTCB 1 0, none, 0⟩ ⟨1, false, true, false, false, 0, 0, []⟩
      true).1 = ⟨initTCB 1 0, none, 0⟩ :=
  (C10_send_segment_first_transmission ⟨initTCB 1 0, none, 0⟩
    ⟨1, false, true, false, false, 0, 0, []⟩ (by decide) (by decide)).2.2.2.1

/-! ### Claim C2 — `close()` in CLOSE_WAIT -/

/-- C2 (code bug, evaluated): `close()` in CLOSE_WAIT does send exactly
one FIN|ACK segment with `seq = snd_nxt` and `ack = rcv_nxt`, but the
state afterwards is still CLOSE_WAIT, not CLOSING: the source's comment
says "send a FIN segment, enter CLOSING state" yet no state assignment
follows the send. -/
theorem C2_close_in_close_wait (ep : TcpEndpoint) (newIss : ℤ)
    (h : ep.tcb.state = .CLOSE_WAIT) :
    (pyClose newIss ep).2 =
      [⟨ep.tcb.socket_id, false, true, true, false,
        ep.tcb.snd_nxt, ep.tcb.rcv_nxt, []⟩] ∧
    (pyClose newIss ep).1.tcb.state = .CLOSE_WAIT ∧
    (pyClose newIss ep).1.tcb.state ≠ .CLOSING := by
  unfold pyClose
  rw [h]
  refine ⟨rfl, ?_, ?_⟩ <;> simp [sendSegment, finAckSegment, h]

/-- C2 witness: the theorem applied to a concrete endpoint in
CLOSE_WAIT. -/
theorem C2_close_in_close_wait_witness :
    (pyClose 7 closeWaitEndpoint).2 =
      [⟨1, false, true, true, false, 42, 17, []⟩] ∧
    (pyClose 7 closeWaitEndpoint).1.tcb.state = .CLOSE_WAIT ∧
    (pyClose 7 closeWaitEndpoint).1.tcb.state ≠ .CLOSING :=
  C2_close_in_close_wait closeWaitEndpoint 7 rfl

/-! ### Claim C4 — retransmission and the 25-attempt limit -/

/-- C4: on each expiry with a non-empty queue the front segment is
resent with `ack` re-updated to `rcv_nxt` (a SYN is resent as-is) and
the timer is restarted; below the limit nothing else is sent and the
state is unchanged; when the per-seq counter reaches 25 the outputs
start with a RST carrying `seq = snd_nxt` followed by `close()`'s
emissions.  Concretely, with ACKs suppressed, expiries 1-25 of
`c4Endpoint` resend only the data segment, and the 26th consecutive
expiry emits the RST with `seq = snd_nxt = 105` and moves the endpoint
into the closing path (ESTABLISHED → FIN_WAIT_1). -/
theorem C4_retransmission_limit (ep : TcpEndpoint) (newIss : ℤ)
    (seg : LoRaTCPSegment) (rest : List LoRaTCPSegment)
    (h : ep.tcb.retransmission_queue = seg :: rest)
    (hlim : (if ep.lastRetransmissionSequenceNumber == some seg.seq then
        ep.retransmissionAttempts + 1 else 0) < 25) :
    ((checkRetransmissionTimerExpired newIss ep).1.tcb.retransmission_timeout_timer
      = some ()) ∧
    (checkRetransmissionTimerExpired newIss ep).2 =
      [if !seg.syn_flag then { seg with ack := ep.tcb.rcv_nxt, ack_flag := true }
       else seg] ∧
    (checkRetransmissionTimerExpired newIss ep).1.tcb.state = ep.tcb.state ∧
    (checkRetransmissionTimerExpired newIss ep).1.tcb.retransmission_queue =
      (if !seg.syn_flag then { seg with ack := ep.tcb.rcv_nxt, ack_flag := true }
       else seg) :: rest ∧
    ((retransmissionTrace 0 25 c4Endpoint).2.all
      (fun out => out.all (fun s => !s.rst_flag)) = true) ∧
    ((checkRetransmissionTimerExpired 0 (retransmissionTrace 0 25 c4Endpoint).1).2.head?
      = some ⟨1, false, true, false, true, 105, 0, []⟩) ∧
    ((retransmissionTrace 0 25 c4Endpoint).1.tcb.snd_nxt = 105) ∧
    ((checkRetransmissionTimerExpired 0 (retransmissionTrace 0 25 c4Endpoint).1).1.tcb.state
      = TCBState.FIN_WAIT_1) := by
  have hstep :
      checkRetransmissionTimerExpired newIss ep =
        ({ ep with
            tcb := { ep.tcb with
              retransmission_queue :=
                (if !seg.syn_flag then
                  { seg with ack := ep.tcb.rcv_nxt, ack_flag := true } else seg) :: rest,
              retransmission_timeout_timer := some () },
            lastRetransmissionSequenceNumber :=
              (if ep.lastRetransmissionSequenceNumber == some seg.seq then
                ep.lastRetransmissionSequenceNumber else some seg.seq),
            retransmissionAttempts :=
              (if ep.lastRetransmissionSequenceNumber == some seg.seq then
                ep.retransmissionAttempts + 1 else 0) },
          [if !seg.syn_flag then { seg with ack := ep.tcb.rcv_nxt, ack_flag := true }
           else seg]) := by
    by_cases hc : (ep.lastRetransmissionSequenceNumber == some seg.seq) = true
    · simp only [hc, if_true] at hlim
      have hge : ¬(ep.retransmissionAttempts + 1 ≥ MAX_RETRANSMISSION_ATTEMPTS) := by
        simp only [MAX_RETRANSMISSION_ATTEMPTS]; omega
      cases hs : seg.syn_flag <;>
        simp [checkRetransmissionTimerExpired, h, hc, hge, hs]
    · have hc' : (ep.lastRetransmissionSequenceNumber == some seg.seq) = false := by
        simpa using hc
      have hge : ¬((0 : ℕ) ≥ MAX_RETRANSMISSION_ATTEMPTS) := by
        simp only [MAX_RETRANSMISSION_ATTEMPTS]; omega
      cases hs : seg.syn_flag <;>
        simp [checkRetransmissionTimerExpired, h, hc', hge, hs]
  refine ⟨?_, ?_, ?_, ?_, ?_, ?_, ?_, ?_⟩
  · rw [hstep]
  · rw [hstep]
  · rw [hstep]
  · rw [hstep]
  · decide
  · decide
  · decide
  · decide

/-- C4 witness: the theorem applied to the concrete ESTABLISHED
endpoint at its first expiry. -/
theorem C4_retransmission_limit_witness :
    (checkRetransmissionTimerExpired 0 c4Endpoint).2 =
      [if !c4DataSegment.syn_flag then
        { c4DataSegment with ack := c4Endpoint.tcb.rcv_nxt, ack_flag := true }
       else c4DataSegment] :=
  (C4_retransmission_limit c4Endpoint 0 c4DataSegment [] rfl
    (by decide)).2.1

/-! ### Claim C3 — receive-window accounting and
`rcv_nxt + rcv_wnd` monotonicity -/

/-- C3 (code bug, evaluated): delivering an out-of-order 2-byte segment
leaves `rcv_wnd = 242 − 1 = 241` — the code subtracts the *entry count*
of the receive buffer from LoRaTCP.py's MAX_PAYLOAD constant, not the
buffered *byte* total (which would give `242 − 2 = 240`); after a second
out-of-order 1-byte segment the sum `rcv_nxt + rcv_wnd` has dropped from
`0 + 241` to `0 + 240`, violating the claimed (and RFC-mandated, per the
source's own comment "The total of RCV.NXT and RCV.WND should not be
reduced") monotonicity.  In-order payloads are reassembled and do
advance `rcv_nxt`. -/
theorem C3_receive_window_accounting :
    (deliverSegmentText ⟨1, false, true, false, false, 10, 0, [1, 2]⟩
      c3Receiver).rcv_wnd = 241 ∧
    (242 - 2 : ℤ) ≠ 241 ∧
    (deliverSegmentText ⟨1, false, true, false, false, 20, 0, [3]⟩
        (deliverSegmentText ⟨1, false, true, false, false, 10, 0, [1, 2]⟩
          c3Receiver)).rcv_nxt +
      (deliverSegmentText ⟨1, false, true, false, false, 20, 0, [3]⟩
        (deliverSegmentText ⟨1, false, true, false, false, 10, 0, [1, 2]⟩
          c3Receiver)).rcv_wnd <
      c3Receiver.rcv_nxt + c3Receiver.rcv_wnd ∧
    (deliverSegmentText ⟨1, false, true, false, false, 0, 0, [7, 8]⟩
      c3Receiver).rcv_nxt = 2 ∧
    (deliverSegmentText ⟨1, false, true, false, false, 0, 0, [7, 8]⟩
      c3Receiver).reassembled_data = [7, 8] := by
  decide

/-- Once a winner is fixed, the walk re-enqueues every remaining frame
in order (the capacity is never hit: at most 10 frames were drained). -/
theorem findFramesLoop_some (active : List ℕ → Bool)
    (fs : List LoRaDataFrame) (a : LoRaDataFrame) :
    ∀ q : List LoRaDataFrame, q.length + fs.length ≤ 10 →
      findFramesLoop active fs (some a) q = (some a, q ++ fs) := by
  induction fs with
  | nil => intro q _; simp [findFramesLoop]
  | cons f fs ih =>
      intro q hlen
      have hq : ¬(q.length ≥ 10) := by
        simp only [List.length_cons] at hlen; omega
      have hput : queuePutSync 10 q f = q ++ [f] := by
        simp [queuePutSync, hq]
      have hnext : (q ++ [f]).length + fs.length ≤ 10 := by
        simp only [List.length_append, List.length_cons] at hlen ⊢
        simp; omega
      cases hf : active f.address <;>
        simp [findFramesLoop, hf, hput, ih _ hnext]

/-- With no winner yet, the walk returns the first frame for an active
sensor and re-enqueues the rest in their original relative order. -/
theorem findFramesLoop_none (active : List ℕ → Bool)
    (fs : List LoRaDataFrame) :
    ∀ q : List LoRaDataFrame, q.length + fs.length ≤ 10 →
      findFramesLoop active fs none q =
        (fs.find? (fun f => active f.address),
         q ++ fs.eraseP (fun f => active f.address)) := by
  induction fs with
  | nil => intro q _; simp [findFramesLoop]
  | cons f fs ih =>
      intro q hlen
      have hq : ¬(q.length ≥ 10) := by
        simp only [List.length_cons] at hlen; omega
      have hput : queuePutSync 10 q f = q ++ [f] := by
        simp [queuePutSync, hq]
      cases hf : active f.address
      · have hnext : (q ++ [f]).length + fs.length ≤ 10 := by
          simp only [List.length_append, List.length_cons] at hlen ⊢
          simp; omega
        simp [findFramesLoop, hf, hput, ih _ hnext, List.find?_cons_of_neg,
          List.eraseP_cons_of_neg]
      · have hnext : q.length + fs.length ≤ 10 := by
          simp only [List.length_cons] at hlen; omega
        simp [findFramesLoop, hf, findFramesLoop_some active fs f q hnext,
          List.find?_cons_of_pos, List.eraseP_cons_of_pos]

/-! ### Claim C9 — active-sensor-aware send selection -/

/-- C9: on the gateway, one selection over a (≤ 10-deep) transmit queue
returns the first queued frame whose destination sensor is active and
leaves exactly the other frames behind in their original relative order
(`eraseP` of the first active frame); when no queued frame has an
active sensor nothing is returned and the queue is unchanged; on a
sensor the selection is plain FIFO. -/
theorem C9_active_sensor_selection (active : List ℕ → Bool)
    (q : List LoRaDataFrame) (h : q.length ≤ 10) :
    findDataframeForActiveSensor .GATEWAY active q =
      (q.find? (fun f => active f.address),
       q.eraseP (fun f => active f.address)) ∧
    (q.find? (fun f => active f.address) = none →
      (findDataframeForActiveSensor .GATEWAY active q).2 = q) ∧
    findDataframeForActiveSensor .SENSOR active q = (q.head?, q.tail) := by
  have hmain : findDataframeForActiveSensor .GATEWAY active q =
      (q.find? (fun f => active f.address),
       q.eraseP (fun f => active f.address)) := by
    have := findFramesLoop_none active q [] (by simpa using h)
    simpa [findDataframeForActiveSensor] using this
  refine ⟨hmain, ?_, ?_⟩
  · intro hnone
    rw [hmain]
    have : ∀ f ∈ q, ¬(active f.address = true) := by
      intro f hf hact
      have hs : (q.find? (fun g => active g.address)).isSome :=
        List.find?_isSome.mpr ⟨f, hf, hact⟩
      rw [hnone] at hs
      simp at hs
    simp [List.eraseP_of_forall_not this]
  · cases q <;> simp [findDataframeForActiveSensor, queuePopSync]

/-- C9 witness: selection over a concrete three-frame queue where only
the middle frame's sensor (address `[2,2,2,2,2,2]`) is active. -/
theorem C9_active_sensor_selection_witness :
    findDataframeForActiveSensor .GATEWAY
        (fun a => a == [2, 2, 2, 2, 2, 2])
        [⟨[1, 1, 1, 1, 1, 1], 1, [10]⟩, ⟨[2, 2, 2, 2, 2, 2], 1, [20]⟩,
         ⟨[3, 3, 3, 3, 3, 3], 1, [30]⟩] =
      ([⟨[1, 1, 1, 1, 1, 1], 1, [10]⟩, ⟨[2, 2, 2, 2, 2, 2], 1, [20]⟩,
        ⟨[3, 3, 3, 3, 3, 3], 1, [30]⟩].find?
          (fun f => f.address == [2, 2, 2, 2, 2, 2]),
       [⟨[1, 1, 1, 1, 1, 1], 1, [10]⟩, ⟨[2, 2, 2, 2, 2, 2], 1, [20]⟩,
        ⟨[3, 3, 3, 3, 3, 3], 1, [30]⟩].eraseP
          (fun f => f.address == [2, 2, 2, 2, 2, 2])) :=
  (C9_active_sensor_selection (fun a => a == [2, 2, 2, 2, 2, 2])
    [⟨[1, 1, 1, 1, 1, 1], 1, [10]⟩, ⟨[2, 2, 2, 2, 2, 2], 1, [20]⟩,
     ⟨[3, 3, 3, 3, 3, 3], 1, [30]⟩] (by decide)).1

end FenceMonitor
